import Mathlib

/-!
# Verification model of the pycamunda connector core

A shallow embedding of the request/response validation and dispatch
pipeline of the `pycamunda` library: credential resolution
(`connector.py`, `AccessCredentials` / `UsernamePasswordAccessCredentials`),
the schema-validated `Entity` model (`entity.py`), the `Endpoint`
descriptor and the `Camunda` connector (`connector.py`), and the
multipart form input (`entity.py`, `MultipartFormInput`).

Python machinery is modelled explicitly: exceptions become `Except`,
`None` becomes `Option`, Python `dict`s become ordered association
lists with replace-on-insert semantics, and the connector's mutable
cache becomes explicit state passing.  The HTTP transport
(`requests.request`) is an external collaborator and is modelled as a
function from requests to responses; dispatch additionally returns the
list of requests it issued so that theorems can speak about the wire
traffic.
-/

namespace Pycamunda

/-! ## Structured values (the result of decoding a wire payload)

Models the JSON-like values produced by `json.loads` and consumed by
`voluptuous` schemas in `entity.py`. -/

/-- A JSON-like structured value: what `json.loads` returns and what
entity schemas validate. -/
inductive JsonVal where
  | null : JsonVal
  | bool (b : Bool) : JsonVal
  | num (n : Int) : JsonVal
  | str (s : String) : JsonVal
  | arr (elems : List JsonVal) : JsonVal
  | obj (fields : List (String × JsonVal)) : JsonVal

/-! ## Entity construction (`entity.py`, `Entity.__init__`)

`Entity.__init__(raw)` takes either a raw string or an
already-structured value; a string is first passed through the
subclass-supplied decoder (for `JsonEntity`, `json.loads`), then the
structured value is validated by the subclass-supplied `voluptuous`
schema.  A `voluptuous.Error` is re-raised as `InvalidEntity`; any
other exception (in particular a decoder failure) is re-raised as
`MalformedEntity`.  The decoder and schema are abstract properties of
the subclass, so they are parameters of the model; a decoder failure
is `none`, and a schema failure (`voluptuous.Error`) is `none`. -/

/-- The raw input to `Entity.__init__`: either a wire string or an
already-structured value (the nested-entity case). -/
inductive RawInput (α : Type) where
  | str (s : String) : RawInput α
  | dict (v : α) : RawInput α

/-- The two failure modes of entity construction: `MalformedEntity`
(decoder failure) and `InvalidEntity` (schema failure). -/
inductive EntityFailure where
  | malformed : EntityFailure
  | invalid : EntityFailure
deriving DecidableEq

/-- `Entity.__init__` from `entity.py`: decode a string input with
`decoder` (failure is a non-`voluptuous` exception, re-raised as
`MalformedEntity`), skip decoding for structured input, then validate
with `schema` (a `voluptuous.Error` is re-raised as
`InvalidEntity`).  On success `self.decoded` holds the schema's
output. -/
def entityInit {α β : Type} (decoder : String → Option α)
    (schema : α → Option β) : RawInput α → Except EntityFailure β
  | .str s =>
    match decoder s with
    | none => .error .malformed
    | some d =>
      match schema d with
      | none => .error .invalid
      | some v => .ok v
  | .dict d =>
    match schema d with
    | none => .error .invalid
    | some v => .ok v

/-- The decode step of `Entity.__init__` in isolation: a string goes
through the decoder, a structured value is taken as-is (`if not
isinstance(raw, dict): raw = self.decoder(raw)`). -/
def rawDecoded {α : Type} (decoder : String → Option α) :
    RawInput α → Option α
  | .str s => decoder s
  | .dict d => some d

/-- Python dictionary membership and subscription (`k in d`, `d[k]`)
on an ordered association list. -/
def dictLookup {κ β : Type} [DecidableEq κ] (k : κ) :
    List (κ × β) → Option β
  | [] => none
  | (k', v) :: rest => if k' = k then some v else dictLookup k rest

/-- `Entity.build(**kwargs)` from `entity.py`: treats the keyword
mapping directly as the structured value (`cls(kwargs)`), so the
decode step is skipped and only schema validation applies. -/
def entityBuild {α β : Type} (decoder : String → Option α)
    (schema : α → Option β) (fields : α) : Except EntityFailure β :=
  entityInit decoder schema (.dict fields)

/-! ## Credential resolution (`connector.py`, `AccessCredentials`) -/

/-- The injectable system abstraction (`system.py`, `System`) as the
credential resolver uses it: environment lookup, file-existence test,
and file read (whose I/O failure, `EnvironmentError`, is `none`). -/
structure SystemM where
  env : String → Option String
  isFile : String → Bool
  readFile : String → Option String

/-- `AccessCredentials.find_credentials` from `connector.py`: read the
environment variable named `key.upper()` and return its stripped value
if set; otherwise, if a file named `key.lower()` exists, return its
stripped contents (a read failure is logged and skipped); otherwise
`None`.  This function never raises. -/
def findCredentials (sys : SystemM) (key : String) : Option String :=
  match sys.env key.toUpper with
  | some v => some v.trim
  | none =>
    if sys.isFile key.toLower then
      match sys.readFile key.toLower with
      | some contents => some contents.trim
      | none => none
    else none

/-- `AccessCredentials.__init__` from `connector.py`: an explicitly
supplied credential value is stored as-is; otherwise the value found
by `find_credentials` is passed through the `process_credentials` hook
(whose `ValueError` is caught and logged, degrading to `None`); if
nothing is found the stored value is `None`.  The default hook is the
identity. -/
def accessCredentialsInit (processCredentials : String → Option String)
    (sys : SystemM) (key : String) (credentials : Option String) :
    Option String :=
  match credentials with
  | some c => some c
  | none =>
    match findCredentials sys key with
    | some found => processCredentials found
    | none => none

/-- The default `process_credentials` hook: raw string passthrough. -/
def defaultProcessCredentials : String → Option String := fun s => some s

/-! ## Username/password credentials
(`connector.py`, `UsernamePasswordAccessCredentials.__init__`) -/

/-- Python's `str()` applied to an optional string, as used by
`'{}:{}'.format(user, password)`: `str(None)` is the text `None`. -/
def pyStr (o : Option String) : String :=
  match o with
  | some s => s
  | none => "None"

/-- The guard `user is None != password is None` from
`UsernamePasswordAccessCredentials.__init__`.  Python chains the
comparison operators `is`, `!=`, `is`, so the expression is
`(user is None) and (None != password) and (password is None)`. -/
def chainedNoneGuard (user password : Option String) : Bool :=
  (user == none) && (none != password) && (password == none)

/-- `UsernamePasswordAccessCredentials.__init__` from `connector.py`:
raise `ValueError` when the guard fires, otherwise forward
`'{}:{}'.format(user, password)` when `user` is set (and `None`
otherwise) to `AccessCredentials.__init__` as the explicit
credentials argument.  The model returns that forwarded argument. -/
def usernamePasswordInit (user password : Option String) :
    Except String (Option String) :=
  if chainedNoneGuard user password then
    .error "user and password must be supplied together or not at all"
  else if user.isSome then
    .ok (some (pyStr user ++ ":" ++ pyStr password))
  else
    .ok none

/-! ## Endpoint descriptors (`connector.py`, `Endpoint`) -/

/-- An `Endpoint` instance (`connector.py`).  `instanceId` is the
opaque identity token of the Python object: `Endpoint` overrides
neither `__eq__` nor `__hash__`, so the connector's cache dictionary
keys endpoints by object identity.  `headers`, `timeout` and `params`
model the properties of the same names with the base-class defaults
(`None`, `10.0`, and no attached parameters); `returnType` models the
`return_type` property as `None` or the entity-construction function
of the declared entity class. -/
structure EndpointI where
  instanceId : Nat
  method : String
  uri : String
  engineName : Option String := none
  headers : Option (List (String × String)) := none
  timeout : ℚ := 10
  params : Option (List (String × String)) := none
  returnType : Option (String → Except EntityFailure JsonVal) := none

/-- `Endpoint.engine_uri` from `connector.py`: prefix the URI with
`/engine/<name>` when a named engine is set, else the bare URI. -/
def EndpointI.engineUri (e : EndpointI) : String :=
  match e.engineName with
  | some n => "/engine/" ++ n ++ e.uri
  | none => e.uri

/-! ## The connector (`connector.py`, `Camunda`) -/

/-- One HTTP request as handed to `requests.request` in
`Camunda.communicate_with`: method, absolute URL, basic-auth pair,
headers, timeout, query parameters and body payload. -/
structure HttpRequest where
  method : String
  url : String
  auth : Option (String × String)
  headers : Option (List (String × String))
  timeout : ℚ
  params : Option (List (String × String))
  body : Option String

/-- One HTTP response as seen by `Camunda.communicate_with`: the
status code and the body text. -/
structure HttpResponse where
  statusCode : Nat
  text : String

/-- The `Camunda` connector state (`connector.py`): base URL (with the
`/engine-rest` suffix appended at construction), the default header
dictionary, the response cache (a dictionary keyed by endpoint object
identity), and the resolved basic-auth credentials. -/
structure Camunda where
  baseUrl : String
  headers : List (String × String)
  cache : List (Nat × JsonVal)
  auth : Option (String × String)

/-- `Camunda.__init__` from `connector.py`: append `/engine-rest` to
the base URL, set the default header dictionary to
`Content-Type: application/json`, start with an empty cache, and
build a basic-auth pair from the access credentials when given. -/
def Camunda.init (baseUrl : String) (creds : Option (String × String)) :
    Camunda :=
  { baseUrl := baseUrl ++ "/engine-rest"
    headers := [("Content-Type", "application/json")]
    cache := []
    auth := creds }

/-- Whether the pattern list matches at the head of the character
list. -/
def matchesAt : List Char → List Char → Bool
  | [], _ => true
  | _ :: _, [] => false
  | p :: ps, c :: cs => p == c && matchesAt ps cs

/-- Python's `s.replace(pat, '', 1)` on character lists: remove the
leftmost occurrence of `pat`, leaving the rest unchanged (and the
whole list unchanged when `pat` does not occur). -/
def removeFirstOcc (pat : List Char) : List Char → List Char
  | [] => []
  | c :: cs =>
    if matchesAt pat (c :: cs) then (c :: cs).drop pat.length
    else c :: removeFirstOcc pat cs

/-- The anti-JSON-hijacking marker `)]}'\n` stripped from response
bodies in `Camunda.communicate_with`. -/
def antiHijackMarker : String := ")]\x7d\x27\n"

/-- `response.text.replace(')]}\'\n', '', 1)` from
`Camunda.communicate_with`. -/
def stripResponse (s : String) : String :=
  String.mk (removeFirstOcc antiHijackMarker.toList s.toList)

/-- The `requests.request(endpoint.method, url, auth=self.auth,
headers=endpoint.headers, timeout=endpoint.timeout,
params=endpoint.params, data=payload)` call of
`Camunda.communicate_with`, with `url = self.base_url + endpoint.uri`,
reified as a request value. -/
def mkRequest (c : Camunda) (ep : EndpointI) (payload : Option String) :
    HttpRequest :=
  { method := ep.method
    url := c.baseUrl ++ ep.uri
    auth := c.auth
    headers := ep.headers
    timeout := ep.timeout
    params := ep.params
    body := payload }

/-- The observable outcome of `Camunda.communicate_with`: a normal
return (`None` when the endpoint declares no return type), a
`BadRequest` or `ResourceNotFound` exception carrying the response
body it was constructed from, or a propagated entity-construction
failure. -/
inductive DispatchOutcome where
  | ok (v : Option JsonVal) : DispatchOutcome
  | badRequest (responseText : String) : DispatchOutcome
  | resourceNotFound (responseText : String) : DispatchOutcome
  | entityFailure (e : EntityFailure) : DispatchOutcome

/-- The tail of `Camunda.communicate_with` from the `response =
requests.request(...)` line on: status 400 raises `BadRequest` and
404 `ResourceNotFound`; with no declared return type the body is
discarded and `None` returned; otherwise the anti-hijacking marker is
stripped, the body is decoded through the return type (a
construction failure propagates), and the decoded entity is stored
in the cache when `cache` is set. -/
def handleResponse (ep : EndpointI) (c : Camunda) (cache : Bool)
    (resp : HttpResponse) : DispatchOutcome × Camunda :=
  if resp.statusCode = 400 then (.badRequest resp.text, c)
  else if resp.statusCode = 404 then (.resourceNotFound resp.text, c)
  else
    match ep.returnType with
    | none => (.ok none, c)
    | some decode =>
      match decode (stripResponse resp.text) with
      | .error e => (.entityFailure e, c)
      | .ok v =>
        if cache then
          (.ok (some v), { c with cache := (ep.instanceId, v) :: c.cache })
        else
          (.ok (some v), c)

/-- `Camunda.communicate_with` from `connector.py`.  The HTTP library
is the external `transport`; the result is the outcome, the connector
state after the call, and the list of requests handed to the
transport (empty on a cache hit).  A cache hit — only when `cache` is
set and the endpoint's identity is a key of `self.cache` — returns
the stored entity with no network call; otherwise the single request
built by `mkRequest` (whose URL is `self.base_url + endpoint.uri`)
is sent and the response handled by `handleResponse`. -/
def communicateWith (transport : HttpRequest → HttpResponse)
    (c : Camunda) (ep : EndpointI) (payload : Option String)
    (cache : Bool) : DispatchOutcome × Camunda × List HttpRequest :=
  match (if cache then dictLookup ep.instanceId c.cache else none) with
  | some v => (.ok (some v), c, [])
  | none =>
    let req := mkRequest c ep payload
    let p := handleResponse ep c cache (transport req)
    (p.1, p.2, [req])

/-- Whether a reified request carries a given header key/value pair. -/
def HttpRequest.hasHeader (req : HttpRequest) (k v : String) : Prop :=
  match req.headers with
  | some hs => (k, v) ∈ hs
  | none => False

/-! ## Multipart form input (`entity.py`, `MultipartFormInput`) -/

/-- A `FormOption` (`entity.py`): the content type and headers to use
for a named multipart option. -/
structure FormOptionM where
  contentType : String
  headers : List (String × String)

/-- One entry of the `self.files` dictionary built by
`MultipartFormInput.__init__`: the tuple
`(filename, data, content_type, headers)` handed to the HTTP
library. -/
structure FilePart where
  filename : Option String
  content : String
  contentType : String
  headers : List (String × String)
deriving DecidableEq

/-- `name.replace('_', '-')` from `MultipartFormInput.__init__`. -/
def hyphenate (s : String) : String :=
  String.mk (s.toList.map fun c => if c = '_' then '-' else c)

/-- The part built for a plain file:
`(None, data, 'application/octet-stream', {})`. -/
def octetPart (data : String) : FilePart :=
  { filename := none
    content := data
    contentType := "application/octet-stream"
    headers := [] }

/-- Python dictionary assignment `d[k] = v` on an ordered association
list: replace the value in place when the key is present, else append
the new entry at the end. -/
def dictInsert {β : Type} (k : String) (v : β) :
    List (String × β) → List (String × β)
  | [] => [(k, v)]
  | (k', v') :: rest =>
    if k' = k then (k, v) :: rest else (k', v') :: dictInsert k v rest

/-- The keyword-option loop of `MultipartFormInput.__init__`: for each
keyword `name=data`, hyphenate the name, look it up in
`options_by_name` (a `KeyError` becomes
`ValueError('Unknown option ...')`), and assign
`(None, data, options.content_type, options.headers)` into the
`self.files` dictionary, replacing any same-named entry. -/
def applyFormOptions (optionsByName : String → Option FormOptionM) :
    List (String × String) → List (String × FilePart) →
    Except String (List (String × FilePart))
  | [], m => .ok m
  | (name, data) :: rest, m =>
    let n := hyphenate name
    match optionsByName n with
    | none => .error ("Unknown option " ++ n)
    | some opt =>
      applyFormOptions optionsByName rest
        (dictInsert n ⟨none, data, opt.contentType, opt.headers⟩ m)

/-- `MultipartFormInput.__init__` from `entity.py`: start from the
dictionary mapping each file name to its octet-stream part, then run
the keyword-option loop.  `files` comes in as a Python dictionary, so
its keys are distinct; `kwargs` is the keyword-argument dictionary in
iteration order. -/
def multipartFormInit (optionsByName : String → Option FormOptionM)
    (files : List (String × String)) (kwargs : List (String × String)) :
    Except String (List (String × FilePart)) :=
  applyFormOptions optionsByName kwargs
    (files.map fun p => (p.1, octetPart p.2))

/-! ## The outbound wire encoding

The repository serializes outbound entities by handing the validated
mapping to the HTTP library (`JsonInputEntity.to_requests`); the
rendering of the mapping into wire text lives outside `src/`. -/

/-- Escape one character for the JSON text rendering. -/
def escChar (c : Char) : List Char :=
  if c = '"' then ['\\', '"']
  else if c = '\\' then ['\\', '\\']
  else if c = '\n' then ['\\', 'n']
  else [c]

/-- Render a string as a JSON string literal. -/
def encodeString (s : String) : String :=
  "\"" ++ String.mk (s.toList.foldr (fun c acc => escChar c ++ acc) []) ++ "\""

mutual
/-- Modelled from the spec: the encode path (Entity → wire), "render
the validated field mapping back into wire text (e.g., JSON) for use
as an outbound request body", which the source delegates to the HTTP
library and does not itself contain. -/
def jsonEncode : JsonVal → String
  | .null => "null"
  | .bool true => "true"
  | .bool false => "false"
  | .num n => toString n
  | .str s => encodeString s
  | .arr xs => "[" ++ jsonEncodeList xs ++ "]"
  | .obj fs => "\x7b" ++ jsonEncodeFields fs ++ "\x7d"

/-- Comma-separated rendering of a JSON array's elements. -/
def jsonEncodeList : List JsonVal → String
  | [] => ""
  | [x] => jsonEncode x
  | x :: y :: rest => jsonEncode x ++ "," ++ jsonEncodeList (y :: rest)

/-- Comma-separated rendering of a JSON object's fields. -/
def jsonEncodeFields : List (String × JsonVal) → String
  | [] => ""
  | [(k, v)] => encodeString k ++ ":" ++ jsonEncode v
  | (k, v) :: f :: rest =>
    encodeString k ++ ":" ++ jsonEncode v ++ "," ++ jsonEncodeFields (f :: rest)
end

/-! ## Concrete instances used by witnesses and counterexamples -/

/-- A system with an environment variable set and a readable
credentials file present for every key. -/
def sysAllSources : SystemM :=
  { env := fun _ => some "envcreds"
    isFile := fun _ => true
    readFile := fun _ => some "filecreds" }

/-- A system with no environment variable and no credentials file. -/
def sysNoSources : SystemM :=
  { env := fun _ => none
    isFile := fun _ => false
    readFile := fun _ => none }

/-- A sample decoder: accepts only the string `p`. -/
def sampleDecoder : String → Option JsonVal :=
  fun s => if s = "p" then some JsonVal.null else none

/-- A sample schema: accepts only objects. -/
def sampleSchema : JsonVal → Option JsonVal :=
  fun v => match v with
  | .obj fields => some (.obj fields)
  | _ => none

/-- A sample validated field mapping. -/
def sampleFields : JsonVal :=
  .obj [("id", .str "d1"), ("count", .num 2)]

/-- A decoder that inverts `jsonEncode` at `sampleFields`, standing in
for the external JSON parser on the one wire string the witness
exercises. -/
def sampleFieldsDecoder : String → Option JsonVal :=
  fun s => if s = jsonEncode sampleFields then some sampleFields else none

/-- An entity decode function that wraps the body in a string value,
standing in for a `return_type` whose schema accepts any text. -/
def textEntity : String → Except EntityFailure JsonVal :=
  fun s => .ok (.str s)

/-- A transport returning a fixed status code with body `oops`. -/
def constTransport (status : Nat) : HttpRequest → HttpResponse :=
  fun _ => { statusCode := status, text := "oops" }

/-- The endpoint of the named-engine example: `GET /version` against
engine `eng`. -/
def engineEndpoint : EndpointI :=
  { instanceId := 0
    method := "GET"
    uri := "/version"
    engineName := some "eng" }

/-- The endpoint of the classification example: `GET /job` with a
declared return type. -/
def jobEndpoint : EndpointI :=
  { instanceId := 0
    method := "GET"
    uri := "/job"
    returnType := some textEntity }

/-- An endpoint keeping every base-class default (`headers` is
`None`, `timeout` is `10.0`). -/
def plainEndpoint : EndpointI :=
  { instanceId := 0
    method := "GET"
    uri := "/version" }

/-- An endpoint with a declared return type used by the caching
example. -/
def cachedEndpoint : EndpointI :=
  { instanceId := 0
    method := "GET"
    uri := "/deployment/d1"
    returnType := some textEntity }

/-- The options table of the multipart example: only
`deployment-name` is a known option. -/
def sampleOptions : String → Option FormOptionM :=
  fun n => if n = "deployment-name" then some ⟨"text/plain", []⟩ else none

end Pycamunda

namespace Pycamunda

/-! ## Supporting lemmas -/

/-- Looking up the key just inserted yields the inserted value. -/
theorem dictInsert_lookup_self {β : Type} (k : String) (v : β)
    (m : List (String × β)) : dictLookup k (dictInsert k v m) = some v := by
  induction m with
  | nil => simp [dictInsert, dictLookup]
  | cons hd tl ih =>
    obtain ⟨k', v'⟩ := hd
    by_cases h : k' = k
    · simp [dictInsert, h, dictLookup]
    · simp [dictInsert, h, dictLookup, ih]

/-- Inserting under a different key does not change a lookup. -/
theorem dictInsert_lookup_ne {β : Type} {k k' : String} (v : β)
    (m : List (String × β)) (h : k' ≠ k) :
    dictLookup k' (dictInsert k v m) = dictLookup k' m := by
  induction m with
  | nil => simp [dictInsert, dictLookup, Ne.symm h]
  | cons hd tl ih =>
    obtain ⟨k₀, v₀⟩ := hd
    by_cases h₀ : k₀ = k
    · subst h₀
      simp [dictInsert, dictLookup, Ne.symm h]
    · by_cases h₁ : k₀ = k'
      · subst h₁
        simp [dictInsert, h₀, dictLookup]
      · simp [dictInsert, h₀, dictLookup, h₁, ih]

/-- The keys after an insert are the old keys when the key was
present, and the old keys with the new key appended otherwise. -/
theorem dictInsert_keys {β : Type} (k : String) (v : β)
    (m : List (String × β)) :
    (dictInsert k v m).map Prod.fst = m.map Prod.fst ∨
    (dictInsert k v m).map Prod.fst = m.map Prod.fst ++ [k] := by
  induction m with
  | nil => right; simp [dictInsert]
  | cons hd tl ih =>
    obtain ⟨k₀, v₀⟩ := hd
    by_cases h : k₀ = k
    · left; simp [dictInsert, h]
    · rcases ih with ih | ih
      · left; simp [dictInsert, h, ih]
      · right; simp [dictInsert, h, ih]

/-- An insert preserves distinctness of the keys. -/
theorem dictInsert_keys_nodup {β : Type} (k : String) (v : β)
    (m : List (String × β)) (h : (m.map Prod.fst).Nodup) :
    ((dictInsert k v m).map Prod.fst).Nodup := by
  induction m with
  | nil => simp [dictInsert]
  | cons hd tl ih =>
    obtain ⟨k₀, v₀⟩ := hd
    simp only [List.map_cons, List.nodup_cons] at h
    by_cases hk : k₀ = k
    · subst hk
      have heq : dictInsert k₀ v ((k₀, v₀) :: tl) = (k₀, v) :: tl := by
        simp [dictInsert]
      rw [heq]
      simp only [List.map_cons, List.nodup_cons]
      exact ⟨h.1, h.2⟩
    · simp only [dictInsert, if_neg hk, List.map_cons, List.nodup_cons]
      refine ⟨?_, ih h.2⟩
      rcases dictInsert_keys k v tl with hkeys | hkeys
      · rw [hkeys]; exact h.1
      · rw [hkeys]
        simp only [List.mem_append, List.mem_singleton]
        rintro (hmem | rfl)
        · exact h.1 hmem
        · exact hk rfl

/-- Turning the file dictionary into octet-stream parts preserves
lookups. -/
theorem dictLookup_octet_map (files : List (String × String))
    (k d : String) (h : dictLookup k files = some d) :
    dictLookup k (files.map fun p => (p.1, octetPart p.2)) =
      some (octetPart d) := by
  induction files with
  | nil => simp [dictLookup] at h
  | cons hd tl ih =>
    obtain ⟨k₀, d₀⟩ := hd
    by_cases hk : k₀ = k
    · subst hk
      simp only [dictLookup, if_true, eq_self_iff_true, Option.some_inj] at h
      simp [dictLookup, h]
    · simp only [dictLookup, if_neg hk] at h
      simpa [dictLookup, hk] using ih h

/-- Keyword options whose hyphenated names avoid a key leave that
key's entry alone. -/
theorem applyFormOptions_lookup_untouched
    (o : String → Option FormOptionM) (key : String) :
    ∀ (kwargs : List (String × String)) (m m' : List (String × FilePart)),
      (∀ q ∈ kwargs, hyphenate q.1 ≠ key) →
      applyFormOptions o kwargs m = .ok m' →
      dictLookup key m' = dictLookup key m := by
  intro kwargs
  induction kwargs with
  | nil =>
    intro m m' _ h
    simp only [applyFormOptions, Except.ok.injEq] at h
    rw [h]
  | cons hd tl ih =>
    intro m m' havoid h
    obtain ⟨n₀, d₀⟩ := hd
    simp only [applyFormOptions] at h
    cases ho : o (hyphenate n₀) with
    | none => rw [ho] at h; exact absurd h (by simp)
    | some opt =>
      rw [ho] at h
      have step := ih _ _ (fun q hq => havoid q (List.mem_cons_of_mem _ hq)) h
      rw [step]
      exact dictInsert_lookup_ne _ _ (havoid (n₀, d₀) (List.mem_cons_self _ _)).symm

/-- The keyword-option loop preserves distinctness of the part
names. -/
theorem applyFormOptions_nodup (o : String → Option FormOptionM) :
    ∀ (kwargs : List (String × String)) (m m' : List (String × FilePart)),
      (m.map Prod.fst).Nodup →
      applyFormOptions o kwargs m = .ok m' →
      (m'.map Prod.fst).Nodup := by
  intro kwargs
  induction kwargs with
  | nil =>
    intro m m' hm h
    simp only [applyFormOptions, Except.ok.injEq] at h
    rw [← h]; exact hm
  | cons hd tl ih =>
    intro m m' hm h
    obtain ⟨n₀, d₀⟩ := hd
    simp only [applyFormOptions] at h
    cases ho : o (hyphenate n₀) with
    | none => rw [ho] at h; exact absurd h (by simp)
    | some opt =>
      rw [ho] at h
      exact ih _ _ (dictInsert_keys_nodup _ _ _ hm) h

/-- A keyword option present in the loop input ends up, after a
successful run, as the part stored under its hyphenated name —
provided no later option reuses that name. -/
theorem applyFormOptions_lookup_of_mem
    (o : String → Option FormOptionM) (name data : String)
    (opt : FormOptionM) :
    ∀ (kwargs : List (String × String)) (m m' : List (String × FilePart)),
      (name, data) ∈ kwargs →
      (kwargs.map fun q => hyphenate q.1).Nodup →
      o (hyphenate name) = some opt →
      applyFormOptions o kwargs m = .ok m' →
      dictLookup (hyphenate name) m' =
        some ⟨none, data, opt.contentType, opt.headers⟩ := by
  intro kwargs
  induction kwargs with
  | nil => intro m m' hmem; simp at hmem
  | cons hd tl ih =>
    intro m m' hmem hnd hopt h
    obtain ⟨n₀, d₀⟩ := hd
    simp only [List.map_cons, List.nodup_cons] at hnd
    simp only [applyFormOptions] at h
    rcases List.mem_cons.mp hmem with heq | htl
    · obtain ⟨rfl, rfl⟩ := Prod.mk.injEq .. ▸ heq
      rw [hopt] at h
      have huntouched := applyFormOptions_lookup_untouched o (hyphenate name)
        tl _ _ (fun q hq => by
          intro hcontra
          exact hnd.1 (List.mem_map.mpr ⟨q, hq, hcontra⟩)) h
      rw [huntouched]
      exact dictInsert_lookup_self _ _ _
    · cases ho : o (hyphenate n₀) with
      | none => rw [ho] at h; exact absurd h (by simp)
      | some opt₀ =>
        rw [ho] at h
        exact ih _ _ htl hnd.2 hopt h

/-- Every request issued by a dispatch is the single request built by
`mkRequest`. -/
theorem communicateWith_requests (t : HttpRequest → HttpResponse)
    (c : Camunda) (ep : EndpointI) (payload : Option String)
    (cache : Bool) :
    (communicateWith t c ep payload cache).2.2 = [] ∨
    (communicateWith t c ep payload cache).2.2 = [mkRequest c ep payload] := by
  unfold communicateWith
  split
  · left; rfl
  · right; rfl

/-! ## Claim theorems -/

/-- C3: the guard `user is None != password is None` in
`UsernamePasswordAccessCredentials.__init__` is a chained comparison
that is always false, so constructing the credentials with exactly
one of username and password supplied does not raise `ValueError`:
at user `alice` and no password, construction succeeds and forwards
the credentials string `alice:None`. -/
theorem c3_partial_credentials_do_not_raise :
    usernamePasswordInit (some "alice") none = .ok (some "alice:None") ∧
    ∀ user password : Option String,
      chainedNoneGuard user password = false := by
  refine ⟨rfl, ?_⟩
  intro user password
  cases password <;> simp [chainedNoneGuard]

/-- C4: credential resolution precedence in
`AccessCredentials.__init__` / `find_credentials`: an explicitly
supplied value is stored unconditionally; with no explicit value, the
environment variable named by the uppercased key wins over the file;
with neither set and the file absent (or unreadable), resolution
yields `None` — and, being a total function, it never raises. -/
theorem c4_credential_precedence :
    (∀ (proc : String → Option String) (sys : SystemM) (key v : String),
      accessCredentialsInit proc sys key (some v) = some v) ∧
    (∀ (sys : SystemM) (key e : String),
      sys.env key.toUpper = some e →
      accessCredentialsInit defaultProcessCredentials sys key none =
        some e.trim) ∧
    (∀ (sys : SystemM) (key : String),
      sys.env key.toUpper = none →
      sys.isFile key.toLower = false →
      accessCredentialsInit defaultProcessCredentials sys key none = none) ∧
    (∀ (sys : SystemM) (key : String),
      sys.env key.toUpper = none →
      sys.readFile key.toLower = none →
      accessCredentialsInit defaultProcessCredentials sys key none = none) := by
  refine ⟨?_, ?_, ?_, ?_⟩
  · intro proc sys key v
    rfl
  · intro sys key e he
    simp [accessCredentialsInit, findCredentials, he,
      defaultProcessCredentials]
  · intro sys key henv hfile
    simp [accessCredentialsInit, findCredentials, henv, hfile]
  · intro sys key henv hread
    simp only [accessCredentialsInit, findCredentials, henv, hread, ite_self]

/-- Witness for C4: with environment variable, file and explicit value
all available the explicit value wins; with only environment and file
the environment variable wins; with no source resolution yields
`None`. -/
theorem c4_credential_precedence_witness :
    accessCredentialsInit defaultProcessCredentials sysAllSources
      "pycamunda" (some "explicit") = some "explicit" ∧
    accessCredentialsInit defaultProcessCredentials sysAllSources
      "pycamunda" none = some "envcreds".trim ∧
    accessCredentialsInit defaultProcessCredentials sysNoSources
      "pycamunda" none = none := by
  exact ⟨c4_credential_precedence.1 defaultProcessCredentials sysAllSources
      "pycamunda" "explicit",
    c4_credential_precedence.2.1 sysAllSources "pycamunda" "envcreds" rfl,
    c4_credential_precedence.2.2.1 sysNoSources "pycamunda" rfl rfl⟩

/-- C5: `Entity.__init__` classifies its failures disjointly: a
string input the decoder rejects fails with `MalformedEntity` (never
`InvalidEntity`), while an input that decodes — or arrives already
structured — but is rejected by the schema fails with
`InvalidEntity`. -/
theorem c5_failure_classification :
    (∀ (decoder : String → Option JsonVal)
       (schema : JsonVal → Option JsonVal) (s : String),
      decoder s = none →
      entityInit decoder schema (.str s) = .error .malformed) ∧
    (∀ (decoder : String → Option JsonVal)
       (schema : JsonVal → Option JsonVal) (s : String) (d : JsonVal),
      decoder s = some d → schema d = none →
      entityInit decoder schema (.str s) = .error .invalid) ∧
    (∀ (decoder : String → Option JsonVal)
       (schema : JsonVal → Option JsonVal) (d : JsonVal),
      schema d = none →
      entityInit decoder schema (.dict d) = .error .invalid) := by
  refine ⟨?_, ?_, ?_⟩
  · intro decoder schema s h
    simp [entityInit, h]
  · intro decoder schema s d hd hs
    simp [entityInit, hd, hs]
  · intro decoder schema d hs
    simp [entityInit, hs]

/-- Witness for C5: with a decoder accepting only `p` and a schema
accepting only objects, the unparseable string `x` is Malformed, the
parseable string `p` (decoding to a non-object) is Invalid, and the
structured non-object `3` is Invalid. -/
theorem c5_failure_classification_witness :
    entityInit sampleDecoder sampleSchema (.str "x") = .error .malformed ∧
    entityInit sampleDecoder sampleSchema (.str "p") = .error .invalid ∧
    entityInit sampleDecoder sampleSchema (.dict (.num 3)) = .error .invalid := by
  refine ⟨c5_failure_classification.1 sampleDecoder sampleSchema "x" ?_,
    c5_failure_classification.2.1 sampleDecoder sampleSchema "p" .null rfl rfl,
    c5_failure_classification.2.2 sampleDecoder sampleSchema (.num 3) rfl⟩
  simp [sampleDecoder]

/-- C8: entity construction succeeds with decoded fields `v` exactly
when the decode step produces some structured value on which the
declared schema yields `v`; in every other case it fails with an
exception and no instance, so every live entity satisfies its
schema. -/
theorem c8_entity_success_characterization :
    ∀ (decoder : String → Option JsonVal)
      (schema : JsonVal → Option JsonVal)
      (raw : RawInput JsonVal) (v : JsonVal),
      entityInit decoder schema raw = .ok v ↔
        ∃ d, rawDecoded decoder raw = some d ∧ schema d = some v := by
  intro decoder schema raw v
  cases raw with
  | str s =>
    cases hd : decoder s with
    | none => simp [entityInit, rawDecoded, hd]
    | some d =>
      cases hs : schema d with
      | none => simp [entityInit, rawDecoded, hd, hs]
      | some w => simp [entityInit, rawDecoded, hd, hs, eq_comm]
  | dict d =>
    cases hs : schema d with
    | none => simp [entityInit, rawDecoded, hs]
    | some w => simp [entityInit, rawDecoded, hs, eq_comm]

/-- C9: for a field mapping on which the schema acts as a validator
(accepting it unchanged) and a decoder that inverts the wire encoding
on it, building the outbound entity, rendering it to wire text, and
constructing an entity back from that text reproduces the same field
values. -/
theorem c9_round_trip :
    ∀ (dec : String → Option JsonVal)
      (schema : JsonVal → Option JsonVal) (fields : JsonVal),
      schema fields = some fields →
      dec (jsonEncode fields) = some fields →
      entityBuild dec schema fields = .ok fields ∧
      entityInit dec schema (.str (jsonEncode fields)) = .ok fields := by
  intro dec schema fields hschema hdec
  constructor
  · simp [entityBuild, entityInit, hschema]
  · simp [entityInit, hdec, hschema]

/-- Witness for C9: the mapping `id = d1, count = 2` survives the
build/encode/decode round trip. -/
theorem c9_round_trip_witness :
    entityBuild sampleFieldsDecoder sampleSchema sampleFields =
      .ok sampleFields ∧
    entityInit sampleFieldsDecoder sampleSchema
      (.str (jsonEncode sampleFields)) = .ok sampleFields := by
  refine c9_round_trip sampleFieldsDecoder sampleSchema sampleFields rfl ?_
  simp [sampleFieldsDecoder]

/-- C1: `Camunda.communicate_with` sends the request to
`self.base_url + endpoint.uri`, ignoring `Endpoint.engine_uri`:
dispatching `GET /version` against engine `eng` from base URL
`http://h` issues exactly one request, whose URL lacks the
`/engine/eng` prefix that `engine_uri` prescribes. -/
theorem c1_named_engine_uri_ignored :
    (communicateWith (constTransport 200) (Camunda.init "http://h" none)
        engineEndpoint none false).2.2 =
      [mkRequest (Camunda.init "http://h" none) engineEndpoint none] ∧
    (mkRequest (Camunda.init "http://h" none) engineEndpoint none).url =
      "http://h/engine-rest/version" ∧
    (Camunda.init "http://h" none).baseUrl ++ engineEndpoint.engineUri =
      "http://h/engine-rest/engine/eng/version" ∧
    "http://h/engine-rest/version" ≠ "http://h/engine-rest/engine/eng/version" := by
  refine ⟨rfl, rfl, rfl, ?_⟩
  decide

/-- C2: `Camunda.communicate_with` classifies only statuses 400 and
404; any other non-success status falls through to the success path
and returns a decoded value: a transport answering 500 with body
`oops` yields a normal decoded return, while 400 raises `BadRequest`
and 404 raises `ResourceNotFound`. -/
theorem c2_unclassified_status_passes_as_success :
    (communicateWith (constTransport 500) (Camunda.init "b" none)
        jobEndpoint none false).1 = .ok (some (.str "oops")) ∧
    (communicateWith (constTransport 400) (Camunda.init "b" none)
        jobEndpoint none false).1 = .badRequest "oops" ∧
    (communicateWith (constTransport 404) (Camunda.init "b" none)
        jobEndpoint none false).1 = .resourceNotFound "oops" := by
  exact ⟨rfl, rfl, rfl⟩

/-- Counterexample to C7: an endpoint that does not override
`headers` dispatches with `headers=None` — the connector's stored
default `Content-Type: application/json` dictionary is never passed
to `requests.request` — so the issued request does not carry the
header. -/
theorem c7_default_header_not_attached :
    (communicateWith (constTransport 200) (Camunda.init "b" none)
        plainEndpoint none false).2.2 =
      [mkRequest (Camunda.init "b" none) plainEndpoint none] ∧
    plainEndpoint.headers = none ∧
    (Camunda.init "b" none).headers = [("Content-Type", "application/json")] ∧
    ¬ (mkRequest (Camunda.init "b" none) plainEndpoint none).hasHeader
        "Content-Type" "application/json" := by
  refine ⟨rfl, rfl, rfl, ?_⟩
  intro h
  simp [HttpRequest.hasHeader, mkRequest, plainEndpoint] at h

/-- C7 (amended): every request issued by `Camunda.communicate_with`
carries exactly the endpoint's headers (`None` unless the endpoint
overrides them — the connector's default header dictionary is not
attached) and the endpoint's timeout, whose base-class default is
`10.0` seconds. -/
theorem c7_request_headers_and_timeout :
    (∀ (transport : HttpRequest → HttpResponse) (c : Camunda)
       (ep : EndpointI) (payload : Option String) (cache : Bool)
       (req : HttpRequest),
      req ∈ (communicateWith transport c ep payload cache).2.2 →
      req.headers = ep.headers ∧ req.timeout = ep.timeout) ∧
    (∀ (i : Nat) (m u : String),
      ({ instanceId := i, method := m, uri := u } : EndpointI).timeout = 10) := by
  constructor
  · intro transport c ep payload cache req hreq
    rcases communicateWith_requests transport c ep payload cache with h | h
    · rw [h] at hreq
      simp at hreq
    · rw [h] at hreq
      rw [List.mem_singleton] at hreq
      subst hreq
      exact ⟨rfl, rfl⟩
  · intro i m u
    rfl

/-- Witness for C7 (amended): the request issued for an endpoint with
default headers and timeout carries `headers = None` and timeout
`10.0`. -/
theorem c7_request_headers_and_timeout_witness :
    (mkRequest (Camunda.init "b" none) plainEndpoint none).headers =
      plainEndpoint.headers ∧
    (mkRequest (Camunda.init "b" none) plainEndpoint none).timeout =
      plainEndpoint.timeout ∧
    ({ instanceId := 5, method := "GET", uri := "/u" } : EndpointI).timeout = 10 := by
  have h := c7_request_headers_and_timeout.1 (constTransport 200)
    (Camunda.init "b" none) plainEndpoint none false
    (mkRequest (Camunda.init "b" none) plainEndpoint none)
    (by rw [show (communicateWith (constTransport 200) (Camunda.init "b" none)
        plainEndpoint none false).2.2 =
        [mkRequest (Camunda.init "b" none) plainEndpoint none] from rfl]
        exact List.mem_singleton_self _)
  exact ⟨h.1, h.2, c7_request_headers_and_timeout.2 5 "GET" "/u"⟩

/-- C6: with caching enabled, a first dispatch of an endpoint whose
identity is not yet cached performs the single HTTP exchange and
stores the decoded entity; a second dispatch of the same endpoint
instance returns that identical decoded value and issues no request;
and a dispatch of a field-identical endpoint with a different
identity misses the cache and issues a request, because the cache is
keyed by instance identity. -/
theorem c6_cached_dispatch_single_transport_call
    (t : HttpRequest → HttpResponse) (c : Camunda) (ep : EndpointI)
    (payload : Option String)
    (decode : String → Except EntityFailure JsonVal)
    (v : JsonVal) (j : Nat)
    (hmiss : dictLookup ep.instanceId c.cache = none)
    (hrt : ep.returnType = some decode)
    (h400 : (t (mkRequest c ep payload)).statusCode ≠ 400)
    (h404 : (t (mkRequest c ep payload)).statusCode ≠ 404)
    (hdec : decode (stripResponse (t (mkRequest c ep payload)).text) = .ok v)
    (hj : j ≠ ep.instanceId)
    (hjmiss : dictLookup j c.cache = none) :
    communicateWith t c ep payload true =
      (.ok (some v), { c with cache := (ep.instanceId, v) :: c.cache },
        [mkRequest c ep payload]) ∧
    communicateWith t { c with cache := (ep.instanceId, v) :: c.cache }
        ep payload true =
      (.ok (some v), { c with cache := (ep.instanceId, v) :: c.cache }, []) ∧
    (communicateWith t { c with cache := (ep.instanceId, v) :: c.cache }
        { ep with instanceId := j } payload true).2.2 =
      [mkRequest { c with cache := (ep.instanceId, v) :: c.cache }
        { ep with instanceId := j } payload] := by
  refine ⟨?_, ?_, ?_⟩
  · simp [communicateWith, hmiss, handleResponse, hrt, h400, h404, hdec]
  · simp [communicateWith, dictLookup]
  · simp [communicateWith, dictLookup, Ne.symm hj, hjmiss]

/-- Witness for C6: dispatching `GET /deployment/d1` twice with
caching against a transport answering 200 with body `x` returns the
decoded value both times, issues the request once on the first call,
and issues none on the second; a field-identical endpoint with a
fresh identity still issues a request. -/
theorem c6_cached_dispatch_single_transport_call_witness :
    communicateWith (constTransport 200) (Camunda.init "b" none)
        cachedEndpoint none true =
      (.ok (some (.str "oops")),
        { Camunda.init "b" none with cache := [(0, .str "oops")] },
        [mkRequest (Camunda.init "b" none) cachedEndpoint none]) ∧
    communicateWith (constTransport 200)
        { Camunda.init "b" none with cache := [(0, .str "oops")] }
        cachedEndpoint none true =
      (.ok (some (.str "oops")),
        { Camunda.init "b" none with cache := [(0, .str "oops")] }, []) ∧
    (communicateWith (constTransport 200)
        { Camunda.init "b" none with cache := [(0, .str "oops")] }
        { cachedEndpoint with instanceId := 1 } none true).2.2 =
      [mkRequest { Camunda.init "b" none with cache := [(0, .str "oops")] }
        { cachedEndpoint with instanceId := 1 } none] := by
  have h := c6_cached_dispatch_single_transport_call (constTransport 200)
    (Camunda.init "b" none) cachedEndpoint none textEntity (.str "oops") 1
    rfl rfl (by decide) (by decide) rfl (by decide) rfl
  exact h

/-- C10: in `MultipartFormInput.__init__`, files and keyword options
share the single `self.files` dictionary: when a keyword option's
hyphenated name equals a file's name, a successful construction
stores the option's part (its data with the configured content type
and headers) under that name, replacing the file's octet-stream part,
and the resulting body still has one part per distinct name. -/
theorem c10_option_replaces_file_part
    (optionsByName : String → Option FormOptionM)
    (files kwargs : List (String × String))
    (name data fdata : String) (opt : FormOptionM)
    (m : List (String × FilePart))
    (hfiles : (files.map Prod.fst).Nodup)
    (hmem : (name, data) ∈ kwargs)
    (hnd : (kwargs.map fun q => hyphenate q.1).Nodup)
    (hfile : dictLookup (hyphenate name) files = some fdata)
    (hopt : optionsByName (hyphenate name) = some opt)
    (hok : multipartFormInit optionsByName files kwargs = .ok m) :
    dictLookup (hyphenate name)
        (files.map fun p => (p.1, octetPart p.2)) =
      some (octetPart fdata) ∧
    dictLookup (hyphenate name) m =
      some ⟨none, data, opt.contentType, opt.headers⟩ ∧
    (m.map Prod.fst).Nodup := by
  refine ⟨dictLookup_octet_map files _ fdata hfile, ?_, ?_⟩
  · exact applyFormOptions_lookup_of_mem optionsByName name data opt
      kwargs _ m hmem hnd hopt hok
  · refine applyFormOptions_nodup optionsByName kwargs _ m ?_ hok
    have : ((files.map fun p => (p.1, octetPart p.2)).map Prod.fst) =
        files.map Prod.fst := by
      simp
    rw [this]
    exact hfiles

/-- Witness for C10: the keyword option `deployment_name=dep`
replaces the octet-stream part of the file `deployment-name` with a
`text/plain` part carrying `dep`. -/
theorem c10_option_replaces_file_part_witness :
    dictLookup "deployment-name"
        ([("deployment-name", "orig")].map fun p => (p.1, octetPart p.2)) =
      some (octetPart "orig") ∧
    dictLookup "deployment-name"
        [("deployment-name",
          (⟨none, "dep", "text/plain", []⟩ : FilePart))] =
      some ⟨none, "dep", "text/plain", []⟩ ∧
    (([("deployment-name",
        (⟨none, "dep", "text/plain", []⟩ : FilePart))].map Prod.fst)).Nodup := by
  have h := c10_option_replaces_file_part sampleOptions
    [("deployment-name", "orig")] [("deployment_name", "dep")]
    "deployment_name" "dep" "orig" ⟨"text/plain", []⟩
    [("deployment-name", ⟨none, "dep", "text/plain", []⟩)]
    (by simp) (by simp) (by simp) rfl rfl rfl
  exact h

end Pycamunda
